import Mathlib

/-!
Shallow embedding of the asynchronous task orchestrator of
daily_stock_analysis-web-enhanced (files web/services.py, web/handlers.py,
src/core/market_review.py), together with theorems settling the frozen
claims about it.

Conventions:
* Python dicts holding task records are modelled as association lists in
  insertion order (dictInsert overwrites in place, appends when absent),
  matching CPython dict semantics.
* Each collaborator call that may raise is modelled as an Except String
  value inside an oracle structure; the job runners are translated from
  the source into functions from the oracle to the list of registry
  operations they perform, and a separate interpreter applies those
  operations to the task map, supplying one wall-clock reading per
  operation (each registry mutation in the source calls datetime.now at
  most once).
* Python str operations are modelled on ASCII data (the claims only
  involve ASCII inputs); this is noted at each definition.
-/

namespace StockWeb

/-- ASCII whitespace recognised by Python str.strip and int(); model of the
whitespace class for the ASCII inputs the handlers receive. -/
def isPySpace (c : Char) : Bool :=
  decide (c = ' ' ∨ c = '\t' ∨ c = '\n' ∨ c = '\r' ∨ c = '\x0b' ∨ c = '\x0c')

/-- Python str.strip(): drop leading and trailing whitespace. -/
def pyStrip (s : String) : String :=
  ⟨((s.data.dropWhile isPySpace).reverse.dropWhile isPySpace).reverse⟩

/-- ASCII model of Python str.lower(). -/
def asciiLowerChar (c : Char) : Char :=
  if 'A' ≤ c ∧ c ≤ 'Z' then Char.ofNat (c.toNat + 32) else c

/-- ASCII model of Python str.upper(). -/
def asciiUpperChar (c : Char) : Char :=
  if 'a' ≤ c ∧ c ≤ 'z' then Char.ofNat (c.toNat - 32) else c

def pyLower (s : String) : String := ⟨s.data.map asciiLowerChar⟩

def pyUpper (s : String) : String := ⟨s.data.map asciiUpperChar⟩

/-- The character class of the regex fragment backslash-d, restricted to
ASCII as in all inputs relevant here. -/
def charIsDigit (c : Char) : Bool := decide ('0' ≤ c ∧ c ≤ '9')

/-- Numeric value of a list of ASCII digits. -/
def digitsToNat (cs : List Char) : Nat :=
  cs.foldl (fun n c => n * 10 + (c.toNat - 48)) 0

/-- Python int() digit-part grammar: digits possibly separated by single
underscores (no leading, trailing or doubled underscore). -/
def validIntDigits (cs : List Char) : Bool :=
  !cs.isEmpty
    && cs.all (fun c => charIsDigit c || c == '_')
    && cs.head? != some '_'
    && cs.getLast? != some '_'
    && (cs.zip cs.tail).all (fun p => !(p.1 == '_' && p.2 == '_'))

/-- Model of Python int(str): strips whitespace, optional sign, digits with
optional underscore separators; None models ValueError. -/
def pyInt (s : String) : Option Int :=
  let val := fun (cs : List Char) => digitsToNat (cs.filter (fun c => c != '_'))
  let cs := (pyStrip s).data
  match cs with
  | '+' :: rest =>
      if validIntDigits rest then some (Int.ofNat (val rest)) else none
  | '-' :: rest =>
      if validIntDigits rest then some (-(Int.ofNat (val rest))) else none
  | rest =>
      if validIntDigits rest then some (Int.ofNat (val rest)) else none

/-- Python list slicing l[:stop] for an arbitrary (possibly negative)
integer stop: a negative stop counts from the end, clamped at zero. -/
def pySliceStop (l : List α) (stop : Int) : List α :=
  l.take (if 0 ≤ stop then stop.toNat else ((l.length : Int) + stop).toNat)

/-- One entry of a task's log: the dict literal built in
AnalysisService._append_task_log. -/
structure LogEntry where
  ts : String
  level : String
  msg : String
deriving Repr, DecidableEq

/-- The result payload stored under a task's result key: the dict returned
by AnalysisResult.to_dict (base, opaque key-value data) plus the
report_markdown and report_html keys the runner adds afterwards. -/
structure ResultData where
  base : List (String × String)
  report_markdown : Option String
  report_html : Option String
deriving Repr, DecidableEq

/-- A task record: the dict created at the top of
AnalysisService._run_analysis / _run_market_review.  The kind key is only
present for market-review records (None models absence). -/
structure TaskRecord where
  task_id : String
  code : String
  kind : Option String
  status : String
  start_time : String
  end_time : Option String
  result : Option ResultData
  error : Option String
  report_type : String
  send_notification : Bool
  stage : String
  progress : Int
  logs : List LogEntry
deriving Repr, DecidableEq

/-- The AnalysisService._tasks dict, in insertion order. -/
def TaskMap := List (String × TaskRecord)
deriving DecidableEq

/-- Dict write d[k] = v: overwrite in place when the key exists, append
otherwise (CPython dict semantics). -/
def dictInsert (m : TaskMap) (k : String) (v : TaskRecord) : TaskMap :=
  match m with
  | [] => [(k, v)]
  | (k', v') :: rest =>
      if k' = k then (k, v) :: rest else (k', v') :: dictInsert rest k v

/-- Dict read d.get(k). -/
def dictGet (m : TaskMap) (k : String) : Option TaskRecord :=
  match m with
  | [] => none
  | (k', v') :: rest => if k' = k then some v' else dictGet rest k

/-- AnalysisService._max_task_logs. -/
def maxTaskLogs : Nat := 200

/-- AnalysisService._append_task_log as a pure map transformer; nowTs is
the datetime.now() reading taken when building the entry. -/
def appendTaskLog (m : TaskMap) (nowTs taskId level msg : String)
    (stage : Option String) (progress : Option Int) : TaskMap :=
  match dictGet m taskId with
  | none => m
  | some task =>
      let logs := task.logs ++ [⟨nowTs, level, msg⟩]
      let logs := if logs.length > maxTaskLogs
        then logs.drop (logs.length - maxTaskLogs) else logs
      let task := { task with logs := logs }
      let task := match stage with
        | some s => { task with stage := s }
        | none => task
      let task := match progress with
        | some p => { task with progress := p }
        | none => task
      dictInsert m taskId task

/-- The fields of the record dict literal written at the start of a job
runner, before the start_time reading is taken (status is carried as data
so that theorems can speak about the value the code writes). -/
structure InitRecord where
  task_id : String
  code : String
  kind : Option String
  status : String
  report_type : String
  send_notification : Bool
  stage : String
  progress : Int
deriving Repr, DecidableEq

/-- Materialise the creation dict literal with the start_time reading. -/
def InitRecord.toRecord (r : InitRecord) (nowTs : String) : TaskRecord :=
  { task_id := r.task_id, code := r.code, kind := r.kind, status := r.status,
    start_time := nowTs, end_time := none, result := none, error := none,
    report_type := r.report_type, send_notification := r.send_notification,
    stage := r.stage, progress := r.progress, logs := [] }

/-- The four shapes of registry mutation performed by the job runners in
services.py: record creation, the bare result write
(tasks[id].result = data), the terminal update
(tasks[id].update with status / end_time / result / error), and
_append_task_log. -/
inductive RegOp where
  | create (rec0 : InitRecord)
  | setResult (id : String) (r : ResultData)
  | finish (id : String) (status : String) (result : Option ResultData)
      (error : Option String)
  | appendLog (id : String) (level : String) (msg : String)
      (stage : Option String) (progress : Option Int)
deriving Repr, DecidableEq

/-- The task id a registry operation addresses. -/
def RegOp.targetId : RegOp → String
  | .create r0 => r0.task_id
  | .setResult id _ => id
  | .finish id _ _ _ => id
  | .appendLog id _ _ _ _ => id

/-- Apply one registry operation to the task map; nowTs is the
datetime.now() reading taken while performing it.  The setResult/finish
cases address a record the runner created earlier, so the absent case is
unreachable in every trace produced below (Python would raise KeyError
there); it is completed as a no-op. -/
def applyOp (nowTs : String) (m : TaskMap) : RegOp → TaskMap
  | .create r0 => dictInsert m r0.task_id (r0.toRecord nowTs)
  | .setResult id r =>
      match dictGet m id with
      | none => m
      | some t => dictInsert m id { t with result := some r }
  | .finish id st res err =>
      match dictGet m id with
      | none => m
      | some t =>
          let t := { t with status := st, end_time := some nowTs }
          let t := match res with
            | some r => { t with result := some r }
            | none => t
          let t := match err with
            | some e => { t with error := some e }
            | none => t
          dictInsert m id t
  | .appendLog id lvl msg stage prog => appendTaskLog m nowTs id lvl msg stage prog

/-- Apply a list of registry operations, supplying clock i as the wall
clock reading of the i-th operation. -/
def applyOps (clock : Nat → String) (i : Nat) (m : TaskMap) : List RegOp → TaskMap
  | [] => m
  | op :: rest => applyOps clock (i + 1) (applyOp (clock i) m op) rest

/-- The status value an operation writes to the given record, if any. -/
def RegOp.statusWrite (id : String) : RegOp → Option String
  | .create r0 => if r0.task_id = id then some r0.status else none
  | .finish i st _ _ => if i = id then some st else none
  | _ => none

/-- The sequence of values the status field of the given record takes over
a list of registry operations. -/
def statusWrites (id : String) (ops : List RegOp) : List String :=
  ops.filterMap (RegOp.statusWrite id)

/-- Effect of one registry operation on the single record it addresses
(mirrors applyOp, record-locally). -/
def recStep (nowTs : String) (cur : Option TaskRecord) : RegOp → Option TaskRecord
  | .create r0 => some (r0.toRecord nowTs)
  | .setResult _ r =>
      match cur with
      | none => none
      | some t => some { t with result := some r }
  | .finish _ st res err =>
      match cur with
      | none => none
      | some t =>
          let t := { t with status := st, end_time := some nowTs }
          let t := match res with
            | some r => { t with result := some r }
            | none => t
          let t := match err with
            | some e => { t with error := some e }
            | none => t
          some t
  | .appendLog _ lvl msg stage prog =>
      match cur with
      | none => none
      | some task =>
          let logs := task.logs ++ [⟨nowTs, lvl, msg⟩]
          let logs := if logs.length > maxTaskLogs
            then logs.drop (logs.length - maxTaskLogs) else logs
          let task := { task with logs := logs }
          let task := match stage with
            | some s => { task with stage := s }
            | none => task
          let task := match prog with
            | some p => { task with progress := p }
            | none => task
          some task

/-- Record-local interpretation of a list of operations. -/
def recFold (clock : Nat → String) (i : Nat) (cur : Option TaskRecord) :
    List RegOp → Option TaskRecord
  | [] => cur
  | op :: rest => recFold clock (i + 1) (recStep (clock i) cur op) rest

/-- Modelled from the spec: src/enums.py is not under src/; per the spec
(§4.3, §8) the report types are simple and full, simple being the
default submitted by the handler. -/
inductive ReportType where
  | simple
  | full
deriving Repr, DecidableEq

/-- Modelled from the spec: ReportType.from_str maps the request string to
the enum, defaulting to simple for anything other than full. -/
def ReportType.fromStr (s : String) : ReportType :=
  if s = "full" then .full else .simple

/-- The string ReportType.value echoed into records and responses. -/
def ReportType.value : ReportType → String
  | .simple => "simple"
  | .full => "full"

/-- Python f-string rendering of an Optional value (None prints as
"None"), used for the fetch error in the warning log message. -/
def optFmt : Option String → String
  | none => "None"
  | some e => e

/-- Python x.get(key) or "" on an optional string: both a missing key and
an empty string yield the empty string. -/
def pyOrEmpty : Option String → String
  | none => ""
  | some s => s

/-- The opaque analysis result object produced by Pipeline.analyze_stock:
the runner only calls its to_dict serialization and hands the object to
the report generators. -/
structure AnalysisResult where
  toDict : List (String × String)
deriving Repr, DecidableEq

/-- Oracle for the collaborator calls _run_analysis makes.  Except String
models a raised exception.  Per the collaborator interface (§6)
notifier.is_available returns a plain bool.  mdRender covers the optional
markdown2 rendering together with the local href sanitisation passes, an
opaque string-to-string step whose failure yields an empty report_html. -/
structure Pipeline where
  imports : Except String Unit
  construct : Except String Unit
  fetchAndSave : String → Except String (Bool × Option String)
  analyzeStock : String → Except String (Option AnalysisResult)
  genSingleReport : AnalysisResult → Except String String
  genDashboardReport : AnalysisResult → Except String String
  mdRender : String → Except String String
  notifierAvailable : Bool
  send : String → Except String Bool

/-- The registry operations of the outer exception handler of both job
runners: mark failed with the error text, then log the failure. -/
def failOps (taskId e : String) : List RegOp :=
  [ RegOp.finish taskId "failed" none (some e),
    RegOp.appendLog taskId "ERROR" ("任务异常：" ++ e) (some "failed") (some 100) ]

/-- The notification block of _run_analysis (executed only when
send_notification and the notifier is available).  reportContent is
result_data.get("report_markdown") or "": an empty report skips the send
call and records a push failure. -/
def notifyOps (p : Pipeline) (taskId reportContent : String) : List RegOp :=
  RegOp.appendLog taskId "INFO" "推送通知中..." (some "notify") (some 95) ::
  (if reportContent = "" then
    [RegOp.appendLog taskId "WARNING" "推送失败或未配置有效渠道" (some "notify") (some 97)]
  else
    match p.send reportContent with
    | .ok true =>
        [RegOp.appendLog taskId "INFO" "推送成功" (some "notify") (some 97)]
    | .ok false =>
        [RegOp.appendLog taskId "WARNING" "推送失败或未配置有效渠道" (some "notify") (some 97)]
    | .error e =>
        [RegOp.appendLog taskId "ERROR" ("推送异常：" ++ e) (some "notify") (some 97)])

/-- AnalysisService._run_analysis, translated into the sequence of
registry operations it performs, branching on the collaborator oracle.
The analyze result is represented directly by its to_dict payload (the
runner only reads result.to_dict() and passes the result object to the
report generators). -/
def runAnalysisOps (p : Pipeline) (code taskId : String) (rt : ReportType)
    (sendNotification : Bool) : List RegOp :=
  RegOp.create
    { task_id := taskId, code := code, kind := none,
      status := "running", report_type := rt.value,
      send_notification := sendNotification, stage := "init", progress := 0 } ::
  RegOp.appendLog taskId "INFO" ("任务开始：" ++ code) (some "init") (some 3) ::
  match p.imports with
  | .error e => failOps taskId e
  | .ok _ =>
    RegOp.appendLog taskId "INFO" "初始化分析管道..." (some "init") (some 8) ::
    match p.construct with
    | .error e => failOps taskId e
    | .ok _ =>
      RegOp.appendLog taskId "INFO" "Step 1/3 获取并保存行情数据..." (some "fetch_data") (some 18) ::
      match p.fetchAndSave code with
      | .error e => failOps taskId e
      | .ok (success, ferr) =>
        (if success then
          RegOp.appendLog taskId "INFO" "行情数据已就绪" (some "fetch_data") (some 35)
        else
          RegOp.appendLog taskId "WARNING"
            ("行情数据获取失败：" ++ optFmt ferr ++ "（将尝试使用已有数据继续）")
            (some "fetch_data") (some 35)) ::
        RegOp.appendLog taskId "INFO" "Step 2/3 执行趋势/情报/AI 综合分析..." (some "analyze") (some 55) ::
        match p.analyzeStock code with
        | .error e => failOps taskId e
        | .ok none =>
            [ RegOp.finish taskId "failed" none (some "分析返回空结果"),
              RegOp.appendLog taskId "ERROR" "分析失败：返回空结果" (some "failed") (some 100) ]
        | .ok (some result) =>
            let rd0 : ResultData :=
              { base := result.toDict, report_markdown := none, report_html := none }
            RegOp.setResult taskId rd0 ::
            RegOp.appendLog taskId "INFO" "Step 3/3 生成报告内容..." (some "render_report") (some 85) ::
            let rendered := match rt with
              | .full => p.genDashboardReport result
              | .simple => p.genSingleReport result
            let rd1 := match rendered with
              | .ok md => { rd0 with report_markdown := some md }
              | .error _ => { rd0 with report_markdown := some "" }
            let reportMd := pyOrEmpty rd1.report_markdown
            let rd2 := match p.mdRender reportMd with
              | .ok html => { rd1 with report_html := some html }
              | .error _ => { rd1 with report_html := some "" }
            RegOp.setResult taskId rd2 ::
            RegOp.appendLog taskId "INFO" "报告已生成" (some "render_report") (some 92) ::
            (if sendNotification && p.notifierAvailable then
              notifyOps p taskId reportMd
            else []) ++
            [ RegOp.finish taskId "completed" (some rd2) none,
              RegOp.appendLog taskId "INFO" "任务完成" (some "done") (some 100) ]

/-- Oracle for the collaborator calls _run_market_review makes: the
delayed imports plus get_config, the two optional-helper initialisation
blocks (each caught locally with a warning log), the run_market_review
call, and the optional markdown preview rendering. -/
structure MarketOracle where
  imports : Except String Unit
  searchInit : Except String Unit
  analyzerInit : Except String Unit
  review : Except String (Option String)
  mdRender : String → Except String String

/-- AnalysisService._run_market_review, translated into the sequence of
registry operations it performs. -/
def runMarketReviewOps (o : MarketOracle) (taskId : String) : List RegOp :=
  RegOp.create
    { task_id := taskId, code := "market", kind := some "market_review",
      status := "running", report_type := "full",
      send_notification := false, stage := "market_review", progress := 0 } ::
  RegOp.appendLog taskId "INFO" "任务开始：大盘复盘" (some "market_review") (some 5) ::
  match o.imports with
  | .error e => failOps taskId e
  | .ok _ =>
    (match o.searchInit with
     | .error e =>
        [RegOp.appendLog taskId "WARNING" ("搜索服务初始化失败（将继续）：" ++ e) none none]
     | .ok _ => []) ++
    (match o.analyzerInit with
     | .error e =>
        [RegOp.appendLog taskId "WARNING" ("AI 分析器初始化失败（将继续）：" ++ e) none none]
     | .ok _ => []) ++
    RegOp.appendLog taskId "INFO" "执行大盘复盘分析中..." (some "market_review") (some 35) ::
    match o.review with
    | .error e => failOps taskId e
    | .ok review =>
      if pyOrEmpty review = "" then
        [ RegOp.finish taskId "failed" none (some "大盘复盘返回空结果"),
          RegOp.appendLog taskId "ERROR" "大盘复盘失败：返回空结果" (some "failed") (some 100) ]
      else
        let reportMd := "# 🎯 大盘复盘\n\n" ++ pyOrEmpty review
        let rd0 : ResultData :=
          { base := [("name", "大盘复盘"), ("analysis_summary", ""),
                     ("trend_prediction", ""), ("operation_advice", "")],
            report_markdown := some reportMd, report_html := none }
        let rd1 := match o.mdRender reportMd with
          | .ok html => { rd0 with report_html := some html }
          | .error _ => { rd0 with report_html := some "" }
        [ RegOp.finish taskId "completed" (some rd1) none,
          RegOp.appendLog taskId "INFO" "任务完成：大盘复盘" (some "done") (some 100) ]

/-- Oracle for the collaborator calls inside run_market_review
(src/core/market_review.py): MarketAnalyzer construction and
run_daily_review (an exception anywhere in the try block yields None),
the optional overview snapshot, and the notifier interactions. -/
structure ReviewOracle where
  runDaily : Except String (Option String)
  overview : Option Unit
  formatOverview : Except String String
  saveReport : Except String String
  notifierAvailable : Bool
  send : Except String Bool

/-- run_market_review from src/core/market_review.py: returns the full
report text when the daily review produced one, None on a falsy review or
any exception inside the try block (save/send failures raise out of it). -/
def runMarketReviewFn (o : ReviewOracle) : Option String :=
  match o.runDaily with
  | .error _ => none
  | .ok reviewReport =>
    if pyOrEmpty reviewReport = "" then none
    else
      let snapshotMd := match o.overview with
        | none => ""
        | some _ =>
          match o.formatOverview with
          | .ok md => md
          | .error _ => ""
      let fullReport := if snapshotMd ≠ ""
        then snapshotMd ++ "\n\n---\n\n" ++ pyOrEmpty reviewReport
        else pyOrEmpty reviewReport
      match o.saveReport with
      | .error _ => none
      | .ok _ =>
        if o.notifierAvailable then
          match o.send with
          | .error _ => none
          | .ok _ => some fullReport
        else some fullReport

/-- A job sitting in the worker pool queue, as captured by
executor.submit in submit_analysis / submit_market_review. -/
inductive PendingJob where
  | analysis (code taskId : String) (rt : ReportType) (sendNotification : Bool)
  | marketReview (taskId : String)
deriving Repr, DecidableEq

/-- The mutable state of AnalysisService observable by the claims: the
task map and the queue of submitted-but-not-yet-run jobs. -/
structure ServiceState where
  tasks : TaskMap
  queue : List PendingJob
deriving DecidableEq

/-- The dict returned by submit_analysis. -/
structure SubmitResult where
  success : Bool
  message : String
  code : String
  task_id : String
  report_type : String
  send_notification : Bool
deriving Repr, DecidableEq

/-- AnalysisService.submit_analysis: computes the default notification
flag, builds the timestamped task id, enqueues the job and returns; it
performs no registry operation.  nowStamp is the strftime rendering of
datetime.now() used in the id. -/
def submitAnalysis (s : ServiceState) (nowStamp code : String)
    (rt : ReportType) (hasSourceMessage : Bool)
    (sendNotification : Option Bool) : ServiceState × SubmitResult :=
  let sn := sendNotification.getD hasSourceMessage
  let taskId := code ++ "_" ++ nowStamp
  ({ s with queue := s.queue ++ [PendingJob.analysis code taskId rt sn] },
   { success := true,
     message := if sn then "分析任务已提交，将异步执行并推送通知"
       else "分析任务已提交，将异步执行并展示结果",
     code := code, task_id := taskId, report_type := rt.value,
     send_notification := sn })

/-- AnalysisService.get_task_status. -/
def getTaskStatus (s : ServiceState) (taskId : String) : Option TaskRecord :=
  dictGet s.tasks taskId

/-- Python string comparison: lexicographic on code points. -/
def strLeB : List Char → List Char → Bool
  | [], _ => true
  | _ :: _, [] => false
  | x :: xs, y :: ys =>
      if x.toNat = y.toNat then strLeB xs ys else decide (x.toNat < y.toNat)

/-- Python s1 less-or-equal s2 on strings. -/
def pyStrLe (a b : String) : Prop := strLeB a.data b.data = true

instance (a b : String) : Decidable (pyStrLe a b) :=
  inferInstanceAs (Decidable (strLeB a.data b.data = true))

theorem strLeB_total : ∀ a b : List Char, strLeB a b = true ∨ strLeB b a = true := by
  intro a
  induction a with
  | nil => intro b; left; rfl
  | cons x xs ih =>
    intro b
    cases b with
    | nil => right; rfl
    | cons y ys =>
      by_cases h : x.toNat = y.toNat
      · rcases ih ys with h2 | h2
        · left; simp [strLeB, h, h2]
        · right; simp [strLeB, h.symm, h2]
      · rcases Nat.lt_or_ge x.toNat y.toNat with hlt | hge
        · left; simp [strLeB, h, hlt]
        · right
          have hne : y.toNat ≠ x.toNat := fun he => h he.symm
          simp [strLeB, hne]
          omega

theorem strLeB_trans : ∀ a b c : List Char,
    strLeB a b = true → strLeB b c = true → strLeB a c = true := by
  intro a
  induction a with
  | nil => intros; rfl
  | cons x xs ih =>
    intro b c hab hbc
    cases b with
    | nil => simp [strLeB] at hab
    | cons y ys =>
      cases c with
      | nil => simp [strLeB] at hbc
      | cons z zs =>
        simp only [strLeB] at hab hbc ⊢
        by_cases h1 : x.toNat = y.toNat <;> by_cases h2 : y.toNat = z.toNat
        · rw [if_pos h1] at hab
          rw [if_pos h2] at hbc
          rw [if_pos (h1.trans h2)]
          exact ih ys zs hab hbc
        · rw [if_pos h1] at hab
          rw [if_neg h2] at hbc
          have h3 : x.toNat ≠ z.toNat := h1 ▸ h2
          rw [if_neg h3]
          rw [decide_eq_true_iff] at hbc ⊢
          omega
        · rw [if_neg h1] at hab
          rw [if_pos h2] at hbc
          have h3 : x.toNat ≠ z.toNat := fun he => h1 (he.trans h2.symm)
          rw [if_neg h3]
          rw [decide_eq_true_iff] at hab ⊢
          omega
        · rw [if_neg h1] at hab
          rw [if_neg h2] at hbc
          rw [decide_eq_true_iff] at hab hbc
          have h3 : x.toNat ≠ z.toNat := by omega
          rw [if_neg h3]
          rw [decide_eq_true_iff]
          omega

/-- The sort relation of list_tasks: descending by start_time, compared as
Python compares strings (the sort key x.get with empty default; records
always carry their start_time). -/
def startGe (a b : TaskRecord) : Prop :=
  pyStrLe b.start_time a.start_time

instance : DecidableRel startGe := fun a b =>
  inferInstanceAs (Decidable (pyStrLe b.start_time a.start_time))

instance : IsTotal TaskRecord startGe :=
  ⟨fun a b => (strLeB_total b.start_time.data a.start_time.data).elim Or.inl Or.inr⟩

instance : IsTrans TaskRecord startGe :=
  ⟨fun _ _ _ hab hbc => strLeB_trans _ _ _ hbc hab⟩

/-- AnalysisService.list_tasks: snapshot the values, stable-sort by
start_time descending, slice to the limit (Python slice semantics, so a
negative limit counts from the end). -/
def listTasks (m : TaskMap) (limit : Int) : List TaskRecord :=
  pySliceStop (List.insertionSort startGe (m.map Prod.snd)) limit

/-- ApiHandler.handle_tasks: read the limit query parameter (default
"20"), parse it with int() substituting 20 on ValueError, and return the
task list. -/
def handleTasks (m : TaskMap) (limitParam : Option String) : List TaskRecord :=
  let limStr := limitParam.getD "20"
  let lim : Int := (pyInt limStr).getD 20
  listTasks m lim

/-- Uppercase ASCII letter, the character class [A-Z]. -/
def charIsUpper (c : Char) : Bool := decide ('A' ≤ c ∧ c ≤ 'Z')

/-- Full match of the A-share pattern of six digits (the code has already
been stripped, so the end anchor is a plain end of string). -/
def isAStock (s : String) : Bool :=
  s.data.length == 6 && s.data.all charIsDigit

/-- Full match of the off-market fund pattern 01 followed by four
digits. -/
def is01Fund (s : String) : Bool :=
  match s.data with
  | '0' :: '1' :: rest => rest.length == 4 && rest.all charIsDigit
  | _ => false

/-- Full match of the Hong Kong pattern hk followed by five digits. -/
def isHkStock (s : String) : Bool :=
  match s.data with
  | 'h' :: 'k' :: rest => rest.length == 5 && rest.all charIsDigit
  | _ => false

/-- Full match of the US-ticker pattern of one to five uppercase letters
with an optional dot-letter suffix, applied to the uppercased code. -/
def isUsStock (s : String) : Bool :=
  let cs := s.data
  (1 ≤ cs.length && cs.length ≤ 5 && cs.all charIsUpper)
  || (match cs.reverse with
      | c :: '.' :: front =>
          charIsUpper c && 1 ≤ front.length && front.length ≤ 5
            && front.all charIsUpper
      | _ => false)

/-- The four observable outcomes of ApiHandler.handle_analysis: the three
400 rejections and a successful submission carrying what is passed to
submit_analysis. -/
inductive AnalysisOutcome where
  | missingCode
  | fundRejected (msg : String)
  | invalidFormat (msg : String)
  | submitted (code : String) (rt : ReportType)
deriving Repr, DecidableEq

/-- HTTP status of each outcome (submission itself answers 200 with the
submit result, 500 on an exception from submit, which cannot occur in the
model). -/
def AnalysisOutcome.httpStatus : AnalysisOutcome → Nat
  | .missingCode => 400
  | .fundRejected _ => 400
  | .invalidFormat _ => 400
  | .submitted _ _ => 200

/-- Whether the outcome submitted a task. -/
def AnalysisOutcome.submitsTask : AnalysisOutcome → Bool
  | .submitted _ _ => true
  | _ => false

/-- ApiHandler.handle_analysis on the code and report_type query
parameters: validate presence, strip and lowercase the code, apply the
format regexes, reject 01-prefixed six-digit codes as off-market funds,
reject anything matching no format, otherwise submit. -/
def handleAnalysis (codeParams reportTypeParams : List String) : AnalysisOutcome :=
  match codeParams.head? with
  | none => .missingCode
  | some raw =>
    if pyStrip raw = "" then .missingCode
    else
      let code := pyLower (pyStrip raw)
      let isA := isAStock code
      let isHk := isHkStock code
      let isUs := isUsStock (pyUpper code)
      if isA && is01Fund code then
        .fundRejected ("暂不支持场外基金代码: " ++ code ++ "（请使用场内 ETF 代码，如 510300 / 159915）")
      else if !(isA || isHk || isUs) then
        .invalidFormat ("无效的股票代码格式: " ++ code ++ " (A股6位数字 / 港股hk+5位数字 / 美股1-5个字母)")
      else
        .submitted code (ReportType.fromStr ((reportTypeParams.head?).getD "simple"))

theorem dictGet_dictInsert_self (m : TaskMap) (k : String) (v : TaskRecord) :
    dictGet (dictInsert m k v) k = some v := by
  induction m with
  | nil => simp [dictInsert, dictGet]
  | cons hd tl ih =>
      obtain ⟨k', v'⟩ := hd
      by_cases h : k' = k
      · simp [dictInsert, dictGet, h]
      · simp [dictInsert, dictGet, h, ih]

theorem dictGet_applyOp (nowTs : String) (m : TaskMap) (op : RegOp)
    (id : String) (h : op.targetId = id) :
    dictGet (applyOp nowTs m op) id = recStep nowTs (dictGet m id) op := by
  cases op with
  | create r0 =>
      simp [RegOp.targetId] at h
      subst h
      simp [applyOp, recStep, dictGet_dictInsert_self]
  | setResult i r =>
      simp [RegOp.targetId] at h
      subst h
      cases hg : dictGet m i with
      | none => simp [applyOp, recStep, hg]
      | some t => simp [applyOp, recStep, hg, dictGet_dictInsert_self]
  | finish i st res err =>
      simp [RegOp.targetId] at h
      subst h
      cases hg : dictGet m i with
      | none => simp [applyOp, recStep, hg]
      | some t => simp [applyOp, recStep, hg, dictGet_dictInsert_self]
  | appendLog i lvl msg stage prog =>
      simp [RegOp.targetId] at h
      subst h
      cases hg : dictGet m i with
      | none => simp [applyOp, appendTaskLog, recStep, hg]
      | some t => simp [applyOp, appendTaskLog, recStep, hg, dictGet_dictInsert_self]

theorem dictGet_applyOps (clock : Nat → String) (i : Nat) (m : TaskMap)
    (ops : List RegOp) (id : String) (h : ∀ op ∈ ops, op.targetId = id) :
    dictGet (applyOps clock i m ops) id = recFold clock i (dictGet m id) ops := by
  induction ops generalizing i m with
  | nil => simp [applyOps, recFold]
  | cons op rest ih =>
      have hop : op.targetId = id := h op (by simp)
      have hrest : ∀ o ∈ rest, RegOp.targetId o = id := fun o ho => h o (by simp [ho])
      simp only [applyOps, recFold]
      rw [ih _ _ hrest, dictGet_applyOp _ _ _ _ hop]

/-- Every operation in the list addresses the given record. -/
def allTargets (id : String) (l : List RegOp) : Prop :=
  ∀ op ∈ l, op.targetId = id

theorem allTargets_nil {id : String} : allTargets id [] := by
  intro op h
  cases h

theorem allTargets_cons {id : String} {op : RegOp} {l : List RegOp}
    (h1 : op.targetId = id) (h2 : allTargets id l) :
    allTargets id (op :: l) := by
  intro o ho
  rcases List.mem_cons.mp ho with rfl | ho
  · exact h1
  · exact h2 o ho

theorem allTargets_append {id : String} {l1 l2 : List RegOp}
    (h1 : allTargets id l1) (h2 : allTargets id l2) :
    allTargets id (l1 ++ l2) := by
  intro o ho
  rcases List.mem_append.mp ho with ho | ho
  · exact h1 o ho
  · exact h2 o ho

theorem allTargets_failOps {id e : String} : allTargets id (failOps id e) :=
  allTargets_cons rfl (allTargets_cons rfl allTargets_nil)

theorem allTargets_notifyOps {p : Pipeline} {id rc : String} :
    allTargets id (notifyOps p id rc) := by
  unfold notifyOps
  refine allTargets_cons rfl ?_
  split
  · exact allTargets_cons rfl allTargets_nil
  · split <;> exact allTargets_cons rfl allTargets_nil

theorem allTargets_runAnalysisOps (p : Pipeline) (code taskId : String)
    (rt : ReportType) (sn : Bool) :
    allTargets taskId (runAnalysisOps p code taskId rt sn) := by
  unfold runAnalysisOps
  refine allTargets_cons rfl (allTargets_cons rfl ?_)
  split
  · exact allTargets_failOps
  refine allTargets_cons rfl ?_
  split
  · exact allTargets_failOps
  refine allTargets_cons rfl ?_
  split
  · exact allTargets_failOps
  refine allTargets_cons ?_ (allTargets_cons rfl ?_)
  · split <;> rfl
  split
  · exact allTargets_failOps
  · exact allTargets_cons rfl (allTargets_cons rfl allTargets_nil)
  refine allTargets_cons rfl (allTargets_cons rfl ?_)
  refine allTargets_cons rfl (allTargets_cons rfl ?_)
  refine allTargets_append ?_
    (allTargets_cons rfl (allTargets_cons rfl allTargets_nil))
  split
  · exact allTargets_notifyOps
  · exact allTargets_nil

theorem allTargets_runMarketReviewOps (o : MarketOracle) (taskId : String) :
    allTargets taskId (runMarketReviewOps o taskId) := by
  unfold runMarketReviewOps
  refine allTargets_cons rfl (allTargets_cons rfl ?_)
  split
  · exact allTargets_failOps
  refine allTargets_append (allTargets_append ?_ ?_) ?_
  · split
    · exact allTargets_cons rfl allTargets_nil
    · exact allTargets_nil
  · split
    · exact allTargets_cons rfl allTargets_nil
    · exact allTargets_nil
  refine allTargets_cons rfl ?_
  split
  · exact allTargets_failOps
  split
  · exact allTargets_cons rfl (allTargets_cons rfl allTargets_nil)
  · exact allTargets_cons rfl (allTargets_cons rfl allTargets_nil)

theorem filterMap_statusWrite_notifyOps {p : Pipeline} {id rc : String} :
    List.filterMap (RegOp.statusWrite id) (notifyOps p id rc) = [] := by
  unfold notifyOps
  split
  · simp [RegOp.statusWrite]
  · split <;> simp [RegOp.statusWrite]

theorem statusWrites_runAnalysisOps (p : Pipeline) (code taskId : String)
    (rt : ReportType) (sn : Bool) :
    statusWrites taskId (runAnalysisOps p code taskId rt sn) = ["running", "completed"]
    ∨ statusWrites taskId (runAnalysisOps p code taskId rt sn) = ["running", "failed"] := by
  unfold runAnalysisOps
  cases hi : p.imports with
  | error e => right; simp [statusWrites, RegOp.statusWrite, failOps]
  | ok u =>
    cases hc : p.construct with
    | error e => right; simp [statusWrites, RegOp.statusWrite, failOps]
    | ok u2 =>
      cases hf : p.fetchAndSave code with
      | error e => right; simp [statusWrites, RegOp.statusWrite, failOps]
      | ok fr =>
        obtain ⟨success, ferr⟩ := fr
        cases ha : p.analyzeStock code with
        | error e =>
            right
            cases success <;> simp [statusWrites, RegOp.statusWrite, failOps]
        | ok ores =>
          cases ores with
          | none =>
              right
              cases success <;> simp [statusWrites, RegOp.statusWrite]
          | some result =>
              left
              cases success <;> cases sn <;> cases hna : p.notifierAvailable <;>
                simp [statusWrites, RegOp.statusWrite,
                  filterMap_statusWrite_notifyOps]

theorem statusWrites_runMarketReviewOps (o : MarketOracle) (taskId : String) :
    statusWrites taskId (runMarketReviewOps o taskId) = ["running", "completed"]
    ∨ statusWrites taskId (runMarketReviewOps o taskId) = ["running", "failed"] := by
  unfold runMarketReviewOps
  cases hi : o.imports with
  | error e => right; simp [statusWrites, RegOp.statusWrite, failOps]
  | ok u =>
    cases hre : o.review with
    | error e =>
        right
        cases hs : o.searchInit <;> cases ha : o.analyzerInit <;>
          simp [statusWrites, RegOp.statusWrite, failOps]
    | ok rv =>
        by_cases hrv : pyOrEmpty rv = ""
        · right
          cases hs : o.searchInit <;> cases ha : o.analyzerInit <;>
            simp [statusWrites, RegOp.statusWrite, hrv]
        · left
          cases hs : o.searchInit <;> cases ha : o.analyzerInit <;>
            simp [statusWrites, RegOp.statusWrite, hrv]

/-- A concrete oracle in which every collaborator call succeeds, used to
evaluate the runners on concrete inputs. -/
def okPipe : Pipeline :=
  { imports := .ok (), construct := .ok (),
    fetchAndSave := fun _ => .ok (true, none),
    analyzeStock := fun _ => .ok (some ⟨[("operation_advice", "hold")]⟩),
    genSingleReport := fun _ => .ok "md",
    genDashboardReport := fun _ => .ok "dash",
    mdRender := fun _ => .ok "html",
    notifierAvailable := false,
    send := fun _ => .ok true }

/-- C1 counterexample: on a run in which every collaborator succeeds, the
sequence of values taken by the status field is running then completed;
pending never occurs, so the sequence is a prefix of neither
pending-running-completed nor pending-running-failed, refuting the claim
as stated. -/
theorem claim_C1_counterexample :
    statusWrites "t1" (runAnalysisOps okPipe "600519" "t1" .simple false)
      = ["running", "completed"]
    ∧ ¬ (["running", "completed"] <+: ["pending", "running", "completed"])
    ∧ ¬ (["running", "completed"] <+: ["pending", "running", "failed"]) := by
  refine ⟨rfl, ?_, ?_⟩ <;> decide

/-- C1 amended: every task record is created directly in status running
(pending is never stored), and the status sequence of any run of either
job runner is exactly running-completed or running-failed; in particular
no record leaves a terminal state and no other sequence is observable. -/
theorem claim_C1_amended :
    (∀ (p : Pipeline) (code taskId : String) (rt : ReportType) (sn : Bool),
      statusWrites taskId (runAnalysisOps p code taskId rt sn) = ["running", "completed"]
      ∨ statusWrites taskId (runAnalysisOps p code taskId rt sn) = ["running", "failed"])
    ∧ (∀ (o : MarketOracle) (taskId : String),
      statusWrites taskId (runMarketReviewOps o taskId) = ["running", "completed"]
      ∨ statusWrites taskId (runMarketReviewOps o taskId) = ["running", "failed"]) :=
  ⟨statusWrites_runAnalysisOps, statusWrites_runMarketReviewOps⟩

theorem trim_length (l : List LogEntry) :
    (if l.length > maxTaskLogs then l.drop (l.length - maxTaskLogs) else l).length
      = min l.length maxTaskLogs := by
  by_cases h : l.length > maxTaskLogs
  · simp only [if_pos h, List.length_drop]
    omega
  · simp only [if_neg h]
    omega

theorem trim_suffix (l : List LogEntry) :
    (if l.length > maxTaskLogs then l.drop (l.length - maxTaskLogs) else l) <:+ l := by
  by_cases h : l.length > maxTaskLogs
  · simp only [if_pos h]
    exact List.drop_suffix _ _
  · simp only [if_neg h]
    exact List.suffix_refl l

/-- C2: after any call to the log-append operation on an existing record,
the record's logs hold at most 200 entries, exactly
min (previous length + 1) 200 of them, and they form a suffix of the
previous logs extended by the new entry: the survivors are the most
recent entries in their original relative order, the oldest dropped. -/
theorem claim_C2 (m : TaskMap) (nowTs taskId level msg : String)
    (stage : Option String) (progress : Option Int) (rec : TaskRecord)
    (h : dictGet m taskId = some rec) :
    ∃ rec', dictGet (appendTaskLog m nowTs taskId level msg stage progress) taskId
        = some rec'
      ∧ rec'.logs.length ≤ maxTaskLogs
      ∧ rec'.logs.length = min (rec.logs.length + 1) maxTaskLogs
      ∧ rec'.logs <:+ rec.logs ++ [⟨nowTs, level, msg⟩] := by
  unfold appendTaskLog
  rw [h]
  cases stage <;> cases progress <;>
    · refine ⟨_, dictGet_dictInsert_self _ _ _, ?_, ?_, ?_⟩
      · have ht := trim_length (rec.logs ++ [⟨nowTs, level, msg⟩])
        simp only [List.length_append, List.length_singleton] at ht ⊢
        omega
      · have ht := trim_length (rec.logs ++ [⟨nowTs, level, msg⟩])
        simp only [List.length_append, List.length_singleton] at ht ⊢
        omega
      · exact trim_suffix _

def recW : TaskRecord :=
  { task_id := "w", code := "600519", kind := none, status := "running",
    start_time := "2026-01-01T00:00:00", end_time := none, result := none,
    error := none, report_type := "simple", send_notification := false,
    stage := "init", progress := 0, logs := [⟨"t0", "INFO", "started"⟩] }

def mW : TaskMap := [("w", recW)]

theorem claim_C2_witness :
    ∃ rec', dictGet (appendTaskLog mW "t1" "w" "INFO" "hello" (some "init") (some 3)) "w"
        = some rec'
      ∧ rec'.logs.length ≤ maxTaskLogs
      ∧ rec'.logs.length = min (recW.logs.length + 1) maxTaskLogs
      ∧ rec'.logs <:+ recW.logs ++ [⟨"t1", "INFO", "hello"⟩] :=
  claim_C2 mW "t1" "w" "INFO" "hello" (some "init") (some 3) recW rfl

/-- C3: for a non-negative limit, list_tasks returns at most that many
records, and any record is at least as recent (by start_time) as every
record after it. -/
theorem claim_C3 (m : TaskMap) (limit : Int) (h : 0 ≤ limit) :
    (listTasks m limit).length ≤ limit.toNat
    ∧ List.Pairwise (fun r1 r2 => pyStrLe r2.start_time r1.start_time) (listTasks m limit) := by
  have hrw : listTasks m limit
      = (List.insertionSort startGe (m.map Prod.snd)).take limit.toNat := by
    simp [listTasks, pySliceStop, h]
  constructor
  · rw [hrw]
    exact List.length_take_le _ _
  · rw [hrw]
    exact List.Pairwise.sublist (List.take_sublist _ _)
      (List.sorted_insertionSort startGe (m.map Prod.snd))

theorem claim_C3_witness :
    (listTasks mW 2).length ≤ (2 : Int).toNat
    ∧ List.Pairwise (fun r1 r2 => pyStrLe r2.start_time r1.start_time) (listTasks mW 2) :=
  claim_C3 mW 2 (by decide)

def rA : TaskRecord := { recW with task_id := "a", start_time := "3" }

def rB : TaskRecord := { recW with task_id := "b", start_time := "1" }

def rC : TaskRecord := { recW with task_id := "c", start_time := "2" }

def mEx : TaskMap := [("a", rA), ("b", rB), ("c", rC)]

/-- C4 counterexample: with three stored tasks and the caller-supplied
limit "-1" (numeric but negative), handle_tasks does not substitute the
default 20: it honours -1, whose Python slice semantics drop the least
recent record, returning two records where the default would return all
three. -/
theorem claim_C4_counterexample :
    handleTasks mEx (some "-1") ≠ listTasks mEx 20
    ∧ handleTasks mEx (some "-1")
        = [rA, rC] := by
  refine ⟨?_, by decide⟩
  decide

/-- C4 amended: only a non-numeric limit (one int() rejects) is replaced
by the fixed default 20, in which case at most 20 records are returned; a
negative numeric limit is honoured unchanged (Python slice semantics then
drop trailing records instead of capping at 20). -/
theorem claim_C4_amended (m : TaskMap) (s : String) (h : pyInt s = none) :
    handleTasks m (some s) = listTasks m 20
    ∧ (handleTasks m (some s)).length ≤ 20 := by
  have he : handleTasks m (some s) = listTasks m 20 := by
    simp [handleTasks, h]
  refine ⟨he, ?_⟩
  rw [he]
  have : listTasks m 20
      = (List.insertionSort startGe (m.map Prod.snd)).take (20 : Int).toNat := by
    simp [listTasks, pySliceStop]
  rw [this]
  exact List.length_take_le _ _

theorem claim_C4_amended_witness :
    handleTasks mEx (some "two dozen") = listTasks mEx 20
    ∧ (handleTasks mEx (some "two dozen")).length ≤ 20 :=
  claim_C4_amended mEx "two dozen" (by decide)

theorem mem_keys_dictInsert (m : TaskMap) (k : String) (v : TaskRecord)
    (a : String) :
    a ∈ (dictInsert m k v).map Prod.fst ↔ a ∈ m.map Prod.fst ∨ a = k := by
  induction m with
  | nil => simp [dictInsert]
  | cons hd tl ih =>
      obtain ⟨k2, v2⟩ := hd
      by_cases hk : k2 = k
      · subst hk
        simp [dictInsert]
        tauto
      · simp [dictInsert, hk, ih]
        tauto

theorem dictInsert_keys_nodup (m : TaskMap) (k : String) (v : TaskRecord)
    (h : (m.map Prod.fst).Nodup) :
    ((dictInsert m k v).map Prod.fst).Nodup := by
  induction m with
  | nil => simp [dictInsert]
  | cons hd tl ih =>
      obtain ⟨k2, v2⟩ := hd
      simp only [List.map_cons, List.nodup_cons] at h
      by_cases hk : k2 = k
      · subst hk
        simpa [dictInsert] using h
      · simp only [dictInsert, if_neg hk, List.map_cons, List.nodup_cons]
        refine ⟨?_, ih h.2⟩
        rw [mem_keys_dictInsert]
        rintro (hmem | rfl)
        · exact h.1 hmem
        · exact hk rfl

def recOld : TaskRecord := { recW with task_id := "t", code := "000001" }

def m8 : TaskMap := [("t", recOld)]

def r0New : InitRecord :=
  { task_id := "t", code := "600519", kind := none, status := "running",
    report_type := "simple", send_notification := false, stage := "init",
    progress := 0 }

/-- C8 counterexample: creating a record under an id already present in
the task map does not leave the existing record unchanged; the fresh
record replaces it. -/
theorem claim_C8_counterexample :
    dictGet (applyOp "ts1" m8 (RegOp.create r0New)) "t" ≠ some recOld
    ∧ dictGet (applyOp "ts1" m8 (RegOp.create r0New)) "t"
        = some (r0New.toRecord "ts1") := by
  refine ⟨?_, by decide⟩
  decide

/-- C8 amended: record creation unconditionally overwrites: after the
create, the record stored under the id is the fresh one regardless of any
pre-existing record; the map still holds at most one record per id. -/
theorem claim_C8_amended (m : TaskMap) (r0 : InitRecord) (ts : String)
    (h : (m.map Prod.fst).Nodup) :
    dictGet (applyOp ts m (RegOp.create r0)) r0.task_id = some (r0.toRecord ts)
    ∧ ((applyOp ts m (RegOp.create r0)).map Prod.fst).Nodup := by
  constructor
  · exact dictGet_dictInsert_self _ _ _
  · exact dictInsert_keys_nodup _ _ _ h

theorem claim_C8_amended_witness :
    dictGet (applyOp "ts1" m8 (RegOp.create r0New)) r0New.task_id
        = some (r0New.toRecord "ts1")
    ∧ ((applyOp "ts1" m8 (RegOp.create r0New)).map Prod.fst).Nodup :=
  claim_C8_amended m8 r0New "ts1" (by decide)

/-- C9: submit_analysis performs no registry operation: the task map is
unchanged, the returned task id is the code joined to the timestamp, a
status query for that id still returns absence as long as no record with
that id pre-existed, and the first registry operation of the job body it
enqueues is precisely the creation of the record under that id. -/
theorem claim_C9 (s : ServiceState) (nowStamp code : String) (rt : ReportType)
    (hasSourceMessage : Bool) (sendOpt : Option Bool) :
    (submitAnalysis s nowStamp code rt hasSourceMessage sendOpt).1.tasks = s.tasks
    ∧ (submitAnalysis s nowStamp code rt hasSourceMessage sendOpt).2.task_id
        = code ++ "_" ++ nowStamp
    ∧ (dictGet s.tasks (code ++ "_" ++ nowStamp) = none →
        getTaskStatus (submitAnalysis s nowStamp code rt hasSourceMessage sendOpt).1
          ((submitAnalysis s nowStamp code rt hasSourceMessage sendOpt).2.task_id)
          = none)
    ∧ (∀ (p : Pipeline) (sn : Bool),
        (runAnalysisOps p code (code ++ "_" ++ nowStamp) rt sn).head?
          = some (RegOp.create
              { task_id := code ++ "_" ++ nowStamp, code := code, kind := none,
                status := "running", report_type := rt.value,
                send_notification := sn, stage := "init", progress := 0 })) := by
  refine ⟨rfl, rfl, ?_, ?_⟩
  · intro h
    simpa [getTaskStatus, submitAnalysis] using h
  · intro p sn
    rfl

theorem claim_C9_witness :
    (submitAnalysis ⟨mEx, []⟩ "20260101_000000_000000" "600519" .simple false none).1.tasks
        = mEx
    ∧ getTaskStatus
        (submitAnalysis ⟨mEx, []⟩ "20260101_000000_000000" "600519" .simple false none).1
        ((submitAnalysis ⟨mEx, []⟩ "20260101_000000_000000" "600519" .simple false none).2.task_id)
        = none := by
  have h := claim_C9 ⟨mEx, []⟩ "20260101_000000_000000" "600519" .simple false none
  exact ⟨h.1, h.2.1 ▸ h.2.2.1 (by decide)⟩

theorem charIsDigit_not_space {c : Char} (h : charIsDigit c = true) :
    isPySpace c = false := by
  rw [charIsDigit, decide_eq_true_iff] at h
  rw [isPySpace, decide_eq_false_iff_not]
  rintro (rfl | rfl | rfl | rfl | rfl | rfl) <;> exact absurd h (by decide)

theorem asciiLowerChar_digit {c : Char} (h : charIsDigit c = true) :
    asciiLowerChar c = c := by
  rw [charIsDigit, decide_eq_true_iff] at h
  rw [asciiLowerChar, if_neg]
  rintro ⟨h1, _⟩
  exact absurd (le_trans h1 h.2) (by decide)

theorem dropWhile_eq_self_of_none {p : Char → Bool} {cs : List Char}
    (h : ∀ c ∈ cs, p c = false) : cs.dropWhile p = cs := by
  cases cs with
  | nil => rfl
  | cons x xs => simp [List.dropWhile_cons, h x (List.mem_cons_self x xs)]

theorem pyStrip_digits {s : String} (h : s.data.all charIsDigit = true) :
    pyStrip s = s := by
  have hall : ∀ c ∈ s.data, isPySpace c = false := by
    intro c hc
    exact charIsDigit_not_space (List.all_eq_true.mp h c hc)
  obtain ⟨d⟩ := s
  simp only [pyStrip]
  rw [dropWhile_eq_self_of_none hall,
      dropWhile_eq_self_of_none (fun c hc => hall c (List.mem_reverse.mp hc)),
      List.reverse_reverse]

theorem pyLower_digits {s : String} (h : s.data.all charIsDigit = true) :
    pyLower s = s := by
  obtain ⟨d⟩ := s
  simp only [pyLower]
  rw [List.map_congr_left (fun c hc => asciiLowerChar_digit (List.all_eq_true.mp h c hc))]
  simp

/-- C10: every six-digit all-numeric code starting with 01 is rejected by
handle_analysis as an off-market fund with a 400 response, and no task is
submitted, even though the code matches the six-digit A-share format. -/
theorem claim_C10 (s : String) (rtp : List String)
    (h1 : s.data.length = 6) (h2 : s.data.all charIsDigit = true)
    (h3 : s.data.take 2 = ['0', '1']) :
    isAStock s = true
    ∧ handleAnalysis [s] rtp
        = .fundRejected ("暂不支持场外基金代码: " ++ s ++ "（请使用场内 ETF 代码，如 510300 / 159915）")
    ∧ (handleAnalysis [s] rtp).httpStatus = 400
    ∧ (handleAnalysis [s] rtp).submitsTask = false := by
  have hstrip : pyStrip s = s := pyStrip_digits h2
  have hlower : pyLower s = s := pyLower_digits h2
  have hne : ¬ (pyStrip s = "") := by
    rw [hstrip]
    intro he
    rw [he] at h1
    simp at h1
  have hA : isAStock s = true := by
    simp [isAStock, h1, h2]
  have hfund : is01Fund s = true := by
    rcases hd : s.data with _ | ⟨c0, _ | ⟨c1, rest⟩⟩
    · rw [hd] at h1; simp at h1
    · rw [hd] at h1; simp at h1
    · rw [hd] at h3
      simp only [List.take, List.cons.injEq] at h3
      obtain ⟨rfl, rfl, -⟩ := h3
      rw [hd] at h1 h2
      simp only [List.length_cons] at h1
      simp only [List.all_cons, Bool.and_eq_true] at h2
      simp [is01Fund, hd, h2.2.2]
      omega
  have hmain : handleAnalysis [s] rtp
      = .fundRejected ("暂不支持场外基金代码: " ++ s ++ "（请使用场内 ETF 代码，如 510300 / 159915）") := by
    have hne2 : ¬ (s = "") := by
      intro he
      rw [he] at h1
      simp at h1
    simp [handleAnalysis, hne, hne2, hstrip, hlower, hA, hfund]
  refine ⟨hA, hmain, ?_, ?_⟩ <;> rw [hmain] <;> rfl

theorem claim_C10_witness :
    isAStock "013500" = true
    ∧ handleAnalysis ["013500"] []
        = .fundRejected ("暂不支持场外基金代码: " ++ "013500" ++ "（请使用场内 ETF 代码，如 510300 / 159915）")
    ∧ (handleAnalysis ["013500"] []).httpStatus = 400
    ∧ (handleAnalysis ["013500"] []).submitsTask = false :=
  claim_C10 "013500" [] (by decide) (by decide) (by decide)

/-- C6: when run_market_review hands back no output (None or the empty
string), the market-review record ends in status failed with the
non-empty error text and an end_time set. -/
theorem claim_C6 (o : MarketOracle) (clock : Nat → String) (i : Nat)
    (m : TaskMap) (taskId : String) (rv : Option String)
    (h1 : o.imports = .ok ())
    (h2 : o.review = .ok rv)
    (h3 : pyOrEmpty rv = "") :
    ∃ rec, dictGet (applyOps clock i m (runMarketReviewOps o taskId)) taskId
        = some rec
      ∧ rec.status = "failed"
      ∧ rec.error = some "大盘复盘返回空结果"
      ∧ ¬ ((("大盘复盘返回空结果" : String)) = "")
      ∧ rec.end_time.isSome = true := by
  rw [dictGet_applyOps _ _ _ _ _ (allTargets_runMarketReviewOps o taskId)]
  cases hs : o.searchInit <;> cases ha : o.analyzerInit <;>
    simp [runMarketReviewOps, h1, h2, h3, hs, ha, recFold, recStep,
      maxTaskLogs, InitRecord.toRecord]

def emptyReviewOracle : MarketOracle :=
  { imports := .ok (), searchInit := .ok (), analyzerInit := .ok (),
    review := .ok none, mdRender := fun _ => .ok "html" }

theorem claim_C6_witness :
    ∃ rec, dictGet (applyOps (fun _ => "ts") 0 []
        (runMarketReviewOps emptyReviewOracle "mr1")) "mr1" = some rec
      ∧ rec.status = "failed"
      ∧ rec.error = some "大盘复盘返回空结果"
      ∧ ¬ ((("大盘复盘返回空结果" : String)) = "")
      ∧ rec.end_time.isSome = true :=
  claim_C6 emptyReviewOracle (fun _ => "ts") 0 [] "mr1" none rfl rfl rfl

/-- C5: when the data-fetch step reports failure but analyze returns a
result, the run still ends with status completed, the runner emits a
WARNING log operation at the fetch_data stage, and the final record's
logs contain a WARNING entry. -/
theorem claim_C5 (p : Pipeline) (clock : Nat → String) (i : Nat)
    (m : TaskMap) (code taskId : String) (rt : ReportType) (sn : Bool)
    (ferr : Option String) (result : AnalysisResult)
    (h1 : p.imports = .ok ()) (h2 : p.construct = .ok ())
    (h3 : p.fetchAndSave code = .ok (false, ferr))
    (h4 : p.analyzeStock code = .ok (some result)) :
    RegOp.appendLog taskId "WARNING"
        ("行情数据获取失败：" ++ optFmt ferr ++ "（将尝试使用已有数据继续）")
        (some "fetch_data") (some 35) ∈ runAnalysisOps p code taskId rt sn
    ∧ ∃ rec, dictGet (applyOps clock i m (runAnalysisOps p code taskId rt sn)) taskId
          = some rec
        ∧ rec.status = "completed"
        ∧ rec.logs.any (fun e => e.level == "WARNING") = true := by
  constructor
  · simp [runAnalysisOps, h1, h2, h3, h4]
  · rw [dictGet_applyOps _ _ _ _ _ (allTargets_runAnalysisOps p code taskId rt sn)]
    simp only [runAnalysisOps, h1, h2, h3, h4]
    cases hna : p.notifierAvailable with
    | false =>
        simp [recFold, recStep, maxTaskLogs, InitRecord.toRecord]
    | true =>
      cases sn with
      | false => simp [recFold, recStep, maxTaskLogs, InitRecord.toRecord]
      | true =>
        rcases hrend : (match rt with
            | ReportType.full => p.genDashboardReport result
            | ReportType.simple => p.genSingleReport result) with e | md
        · simp [hrend, notifyOps, recFold, recStep, maxTaskLogs,
            InitRecord.toRecord, pyOrEmpty]
        · by_cases hmd : md = ""
          · simp [hrend, hmd, notifyOps, recFold, recStep, maxTaskLogs,
              InitRecord.toRecord, pyOrEmpty]
          · rcases hsend : p.send md with e2 | b
            · simp [hrend, hmd, hsend, notifyOps, recFold, recStep,
                maxTaskLogs, InitRecord.toRecord, pyOrEmpty]
            · cases b <;>
                simp [hrend, hmd, hsend, notifyOps, recFold, recStep,
                  maxTaskLogs, InitRecord.toRecord, pyOrEmpty]

def fetchFailPipe : Pipeline :=
  { imports := .ok (), construct := .ok (),
    fetchAndSave := fun _ => .ok (false, some "network down"),
    analyzeStock := fun _ => .ok (some ⟨[("operation_advice", "hold")]⟩),
    genSingleReport := fun _ => .ok "md",
    genDashboardReport := fun _ => .ok "dash",
    mdRender := fun _ => .ok "html",
    notifierAvailable := false,
    send := fun _ => .ok true }

theorem claim_C5_witness :
    RegOp.appendLog "t5" "WARNING"
        ("行情数据获取失败：" ++ optFmt (some "network down") ++ "（将尝试使用已有数据继续）")
        (some "fetch_data") (some 35)
      ∈ runAnalysisOps fetchFailPipe "600519" "t5" .simple false
    ∧ ∃ rec, dictGet (applyOps (fun _ => "ts") 0 []
          (runAnalysisOps fetchFailPipe "600519" "t5" .simple false)) "t5"
          = some rec
        ∧ rec.status = "completed"
        ∧ rec.logs.any (fun e => e.level == "WARNING") = true :=
  claim_C5 fetchFailPipe (fun _ => "ts") 0 [] "600519" "t5" .simple false
    (some "network down") ⟨[("operation_advice", "hold")]⟩ rfl rfl rfl rfl

/-- C7: when analyze returns a result but the report-rendering
collaborator raises, the stored result payload carries an empty
report_markdown string and the job still ends with status completed. -/
theorem claim_C7 (p : Pipeline) (clock : Nat → String) (i : Nat)
    (m : TaskMap) (code taskId : String) (rt : ReportType) (sn : Bool)
    (success : Bool) (ferr : Option String) (result : AnalysisResult)
    (e : String)
    (h1 : p.imports = .ok ()) (h2 : p.construct = .ok ())
    (h3 : p.fetchAndSave code = .ok (success, ferr))
    (h4 : p.analyzeStock code = .ok (some result))
    (h5 : (match rt with
        | ReportType.full => p.genDashboardReport result
        | ReportType.simple => p.genSingleReport result) = .error e) :
    ∃ rec rd, dictGet (applyOps clock i m (runAnalysisOps p code taskId rt sn)) taskId
        = some rec
      ∧ rec.status = "completed"
      ∧ rec.result = some rd
      ∧ rd.report_markdown = some "" := by
  rw [dictGet_applyOps _ _ _ _ _ (allTargets_runAnalysisOps p code taskId rt sn)]
  simp only [runAnalysisOps, h1, h2, h3, h4, h5, pyOrEmpty]
  cases success <;> cases hna : p.notifierAvailable <;> cases sn <;>
    rcases hm : p.mdRender "" with e2 | html <;>
      simp [hm, notifyOps, recFold, recStep, maxTaskLogs,
        InitRecord.toRecord, pyOrEmpty]

def renderFailPipe : Pipeline :=
  { imports := .ok (), construct := .ok (),
    fetchAndSave := fun _ => .ok (true, none),
    analyzeStock := fun _ => .ok (some ⟨[("operation_advice", "hold")]⟩),
    genSingleReport := fun _ => .error "template crash",
    genDashboardReport := fun _ => .error "template crash",
    mdRender := fun _ => .ok "html",
    notifierAvailable := false,
    send := fun _ => .ok true }

theorem claim_C7_witness :
    ∃ rec rd, dictGet (applyOps (fun _ => "ts") 0 []
        (runAnalysisOps renderFailPipe "600519" "t7" .simple false)) "t7"
        = some rec
      ∧ rec.status = "completed"
      ∧ rec.result = some rd
      ∧ rd.report_markdown = some "" :=
  claim_C7 renderFailPipe (fun _ => "ts") 0 [] "600519" "t7" .simple false
    true none ⟨[("operation_advice", "hold")]⟩ "template crash" rfl rfl rfl rfl rfl

end StockWeb
